import Mathlib

/-!
Shallow embedding of `src/webcam_osc/visualizer.py` (class `DataVisualizer`).

Conventions of the embedding:
- Python ints are modelled as `Int`; Python float arithmetic on the scale factor
  is modelled as exact rational arithmetic (`ℚ`), with Python `int(...)`
  truncation modelled by `pyInt` (truncation toward zero).
- Python `//` (floor division) is modelled by `Int.fdiv`.
- The mutable attributes of the `DataVisualizer` object are collected into the
  structures `Sizes` (set once by `_calculate_responsive_sizes`), `Layout`
  (set by `_recalculate_layout`) and `VisState` (the whole object state that the
  mouse callback can change).  The attributes `camera_y_offset` and
  `grid_y_offset` are only assigned when the corresponding block is shown, so
  they are modelled as `Option Int` (`none` = attribute never assigned), and
  `_recalculate_layout` keeps the old value when the block is hidden, exactly
  like the Python attribute keeps its previous value.
- The canvas is a total pixel map `Int → Int → Color` in BGR-agnostic triples;
  `render` builds it by successive region writes.  External cv2 glyph
  rasterization (`cv2.putText`, `cv2.getTextSize`) cannot be modelled
  bit-exactly; text output is modelled as a write envelope confined to the
  region the glyphs occupy (inside the tile, around the text baseline).  No
  theorem below inspects glyph pixels, only their location.
- The only operations on the constructor path that can raise in Python are
  modelled in the `Except` variants (`pydiv` for `ZeroDivisionError`); cv2
  window creation is external and independent of `GridConfig`.  `cv2.resize`
  raises on an empty source image (the `!ssize.empty()` assertion), modelled by
  `cvResize`.
-/

namespace WebcamOSC

/-- Errors that Python operations modelled here can raise. -/
inductive PyError where
  | zeroDivisionError
  | cvEmptyFrame
  | attributeError
deriving DecidableEq, Repr

/-- External `GridConfig` (from `webcam_osc.config`): grid dimensions. -/
structure GridConfig where
  rows : Int
  cols : Int
deriving DecidableEq, Repr

/-- External `CellData` (from `webcam_osc.config`): per-tile statistics. -/
structure CellData where
  row : Int
  col : Int
  dominantColor : ℚ × ℚ × ℚ
  avgRed : ℚ
  avgGreen : ℚ
  avgBlue : ℚ
  brightness : ℚ
  contrast : ℚ

/-- A rectangle `(x1, y1, x2, y2)` as used for the button bounds. -/
structure Bounds where
  x1 : Int
  y1 : Int
  x2 : Int
  y2 : Int
deriving DecidableEq, Repr

/-- Constant `self.padding` from `__init__`. -/
def padding : Int := 10

/-- Constant `self.text_padding` from `__init__`. -/
def textPadding : Int := 5

/-- Constant `self.button_height` from `__init__`. -/
def buttonHeight : Int := 35

/-- Constant `self.button_width` from `__init__`. -/
def buttonWidth : Int := 140

/-- Constant `self.button_spacing` from `__init__`. -/
def buttonSpacing : Int := 10

/-- Constant `self.max_height` from `__init__`. -/
def maxHeight : Int := 900

/-- Constant `self.max_width` from `__init__` (defined but never applied). -/
def maxWidth : Int := 1600

/-- Python `int(q)` on a real value: truncation toward zero. -/
def pyInt (q : ℚ) : Int :=
  if q < 0 then -(Rat.floor (-q)) else Rat.floor q

/-- Python `a / b` on numbers: raises `ZeroDivisionError` on a zero divisor. -/
def pydiv (a b : ℚ) : Except PyError ℚ :=
  if b = 0 then Except.error PyError.zeroDivisionError else Except.ok (a / b)

/-- The sizes fixed once by `_calculate_responsive_sizes`. -/
structure Sizes where
  cellSize : Int
  cameraWidth : Int
  cameraHeight : Int
  gridWidth : Int
  gridHeight : Int
deriving DecidableEq, Repr

/-- Embedding of `_calculate_responsive_sizes` (visualizer.py lines 32-51),
with the guarded scale division written as exact rational arithmetic. -/
def calculateResponsiveSizes (cfg : GridConfig) : Sizes :=
  let desiredCellSize : Int := 150
  let desiredCameraWidth : Int := 640
  let desiredCameraHeight : Int := 480
  let desiredGridHeight : Int :=
    desiredCellSize * cfg.rows + padding * (cfg.rows + 1)
  let totalDesiredHeight : Int :=
    padding + desiredCameraHeight + padding + desiredGridHeight + padding +
      buttonHeight + padding
  let scaleFactor : ℚ :=
    if totalDesiredHeight > maxHeight then
      (maxHeight : ℚ) / (totalDesiredHeight : ℚ)
    else 1
  let cellSize : Int := pyInt ((desiredCellSize : ℚ) * scaleFactor)
  let cameraWidth : Int := pyInt ((desiredCameraWidth : ℚ) * scaleFactor)
  let cameraHeight : Int := pyInt ((desiredCameraHeight : ℚ) * scaleFactor)
  { cellSize := cellSize
    cameraWidth := cameraWidth
    cameraHeight := cameraHeight
    gridWidth := cellSize * cfg.cols + padding * (cfg.cols + 1)
    gridHeight := cellSize * cfg.rows + padding * (cfg.rows + 1) }

/-- Embedding of `_calculate_responsive_sizes` with the single fallible Python
operation on that path (the scale division) made explicit via `pydiv`. -/
def calculateResponsiveSizesE (cfg : GridConfig) : Except PyError Sizes := do
  let desiredCellSize : Int := 150
  let desiredCameraWidth : Int := 640
  let desiredCameraHeight : Int := 480
  let desiredGridHeight : Int :=
    desiredCellSize * cfg.rows + padding * (cfg.rows + 1)
  let totalDesiredHeight : Int :=
    padding + desiredCameraHeight + padding + desiredGridHeight + padding +
      buttonHeight + padding
  let scaleFactor : ℚ ←
    if totalDesiredHeight > maxHeight then
      pydiv (maxHeight : ℚ) (totalDesiredHeight : ℚ)
    else Except.ok 1
  let cellSize : Int := pyInt ((desiredCellSize : ℚ) * scaleFactor)
  let cameraWidth : Int := pyInt ((desiredCameraWidth : ℚ) * scaleFactor)
  let cameraHeight : Int := pyInt ((desiredCameraHeight : ℚ) * scaleFactor)
  Except.ok
    { cellSize := cellSize
      cameraWidth := cameraWidth
      cameraHeight := cameraHeight
      gridWidth := cellSize * cfg.cols + padding * (cfg.cols + 1)
      gridHeight := cellSize * cfg.rows + padding * (cfg.rows + 1) }

/-- The layout attributes written by `_recalculate_layout`.  The two offsets
are optional because the Python attributes are only assigned when the block is
shown (and keep their previous value otherwise). -/
structure Layout where
  buttonBarY : Int
  cameraYOffset : Option Int
  gridYOffset : Option Int
  height : Int
  width : Int
  closeButtonBounds : Bounds
  toggleCameraButtonBounds : Bounds
  toggleGridButtonBounds : Bounds
deriving DecidableEq, Repr

/-- Embedding of `_recalculate_layout` (visualizer.py lines 53-101).  `old`
carries the attribute values from before the call; only the conditionally
assigned offsets can flow through from it. -/
def recalculateLayout (s : Sizes) (showCam showGrid : Bool) (old : Layout) : Layout :=
  let h0 : Int := padding
  let barY : Int := h0
  let h1 : Int := h0 + buttonHeight + padding
  let camY : Option Int := if showCam then some h1 else old.cameraYOffset
  let h2 : Int := if showCam then h1 + s.cameraHeight + padding else h1
  let gridY : Option Int := if showGrid then some h2 else old.gridYOffset
  let h3 : Int := if showGrid then h2 + s.gridHeight + padding else h2
  let widths : List Int :=
    (if showCam then [s.cameraWidth] else []) ++
      (if showGrid then [s.gridWidth] else [])
  let contentWidth : Int :=
    match widths with
    | [] => 400
    | w :: ws => ws.foldl max w
  let width : Int := contentWidth + 2 * padding
  let totalButtonWidth : Int := buttonWidth * 3 + buttonSpacing * 2
  let buttonStartX : Int := Int.fdiv (width - totalButtonWidth) 2
  { buttonBarY := barY
    cameraYOffset := camY
    gridYOffset := gridY
    height := h3
    width := width
    closeButtonBounds :=
      ⟨buttonStartX, barY, buttonStartX + buttonWidth, barY + buttonHeight⟩
    toggleCameraButtonBounds :=
      ⟨buttonStartX + buttonWidth + buttonSpacing, barY,
        buttonStartX + 2 * buttonWidth + buttonSpacing, barY + buttonHeight⟩
    toggleGridButtonBounds :=
      ⟨buttonStartX + 2 * buttonWidth + 2 * buttonSpacing, barY,
        buttonStartX + 3 * buttonWidth + 2 * buttonSpacing, barY + buttonHeight⟩ }

/-- The object state the mouse callback and renderer read and write. -/
structure VisState where
  showCamera : Bool
  showGrid : Bool
  shouldClose : Bool
  mouse : Option (Int × Int)
  sizes : Sizes
  layout : Layout
deriving DecidableEq, Repr

/-- Attribute values before the first `_recalculate_layout` call: the offsets
have never been assigned; the remaining fields are always overwritten by the
first call, so their placeholder values are irrelevant. -/
def initialLayout : Layout :=
  { buttonBarY := 0
    cameraYOffset := none
    gridYOffset := none
    height := 0
    width := 0
    closeButtonBounds := ⟨0, 0, 0, 0⟩
    toggleCameraButtonBounds := ⟨0, 0, 0, 0⟩
    toggleGridButtonBounds := ⟨0, 0, 0, 0⟩ }

/-- Embedding of `__init__` (visualizer.py lines 8-30): sizes are computed
once, then the layout; `show_grid_runtime` starts `True`, `should_close`
`False`, and no mouse position has been recorded yet.  Window creation is
external. -/
def construct (cfg : GridConfig) (showCamera : Bool) : VisState :=
  { showCamera := showCamera
    showGrid := true
    shouldClose := false
    mouse := none
    sizes := calculateResponsiveSizes cfg
    layout := recalculateLayout (calculateResponsiveSizes cfg) showCamera true initialLayout }

/-- Embedding of `__init__` with the fallible constructor-path operations made
explicit: the only one is the guarded scale division inside
`_calculate_responsive_sizes`. -/
def constructE (cfg : GridConfig) (showCamera : Bool) : Except PyError VisState := do
  let s ← calculateResponsiveSizesE cfg
  Except.ok
    { showCamera := showCamera
      showGrid := true
      shouldClose := false
      mouse := none
      sizes := s
      layout := recalculateLayout s showCamera true initialLayout }

/-- Embedding of `_is_point_in_bounds` (visualizer.py lines 266-272):
inclusive rectangle containment. -/
def isPointInBounds (x y : Int) (b : Bounds) : Bool :=
  decide (b.x1 ≤ x) && decide (x ≤ b.x2) && decide (b.y1 ≤ y) && decide (y ≤ b.y2)

/-- The two pointer events the mouse callback distinguishes. -/
inductive MouseEvent where
  | mousemove (x y : Int)
  | lbuttondown (x y : Int)
deriving DecidableEq, Repr

/-- Embedding of `_mouse_callback` (visualizer.py lines 252-264). -/
def mouseCallback (v : VisState) (e : MouseEvent) : VisState :=
  match e with
  | MouseEvent.mousemove x y => { v with mouse := some (x, y) }
  | MouseEvent.lbuttondown x y =>
    if isPointInBounds x y v.layout.closeButtonBounds then
      { v with shouldClose := true }
    else if isPointInBounds x y v.layout.toggleCameraButtonBounds then
      let sc := !v.showCamera
      { v with
        showCamera := sc
        layout := recalculateLayout v.sizes sc v.showGrid v.layout }
    else if isPointInBounds x y v.layout.toggleGridButtonBounds then
      let sg := !v.showGrid
      { v with
        showGrid := sg
        layout := recalculateLayout v.sizes v.showCamera sg v.layout }
    else v

/-- Shorthand for feeding a left-button-down event to the callback. -/
def stepDown (v : VisState) (x y : Int) : VisState :=
  mouseCallback v (MouseEvent.lbuttondown x y)

/-- The LayoutGeometry of the data model: the stored layout with the offset of
a hidden block dropped (the spec marks `cameraYOffset` and `gridYOffset` as
optional; a hidden block has no place in the current geometry and its stored
offset is never read while it stays hidden). -/
def visibleGeometry (showCam showGrid : Bool) (l : Layout) : Layout :=
  { l with
    cameraYOffset := if showCam then l.cameraYOffset else none
    gridYOffset := if showGrid then l.gridYOffset else none }

/-- A pixel color as a `(b, g, r)`-style integer triple. -/
abbrev Color := Int × Int × Int

/-- The canvas as a total pixel map: row, then column, to color. -/
abbrev Canvas := Int → Int → Color

/-- An external camera frame: its pixel grid dimensions and contents. -/
structure Frame where
  rows : Nat
  cols : Nat
  pix : Int → Int → Color

/-- Embedding of `cv2.resize(frame, (w, h))`: raises on an empty source image
(the OpenCV `!ssize.empty()` assertion).  The interpolated pixel contents are
external to this model and are carried through unchanged; no theorem below
inspects them. -/
def cvResize (f : Frame) (w h : Int) : Except PyError Frame :=
  if f.rows = 0 ∨ f.cols = 0 then Except.error PyError.cvEmptyFrame
  else Except.ok { rows := h.toNat, cols := w.toNat, pix := f.pix }

/-- Embedding of the numpy slice assignment
`canvas[cy : cy + h, cx : cx + w] = resized` (half-open ranges). -/
def blitFrame (c : Canvas) (cy cx h w : Int) (f : Frame) : Canvas :=
  fun yy xx =>
    if cy ≤ yy ∧ yy < cy + h ∧ cx ≤ xx ∧ xx < cx + w then
      f.pix (yy - cy) (xx - cx)
    else c yy xx

/-- Embedding of `cv2.rectangle(..., thickness=-1)`: fill the inclusive
rectangle. -/
def fillRect (c : Canvas) (x1 y1 x2 y2 : Int) (col : Color) : Canvas :=
  fun yy xx =>
    if x1 ≤ xx ∧ xx ≤ x2 ∧ y1 ≤ yy ∧ yy ≤ y2 then col else c yy xx

/-- Embedding of `cv2.rectangle(..., thickness=1)`: write the one-pixel border
ring of the inclusive rectangle. -/
def strokeRect (c : Canvas) (x1 y1 x2 y2 : Int) (col : Color) : Canvas :=
  fun yy xx =>
    if (x1 ≤ xx ∧ xx ≤ x2 ∧ y1 ≤ yy ∧ yy ≤ y2) ∧
        (xx = x1 ∨ xx = x2 ∨ yy = y1 ∨ yy = y2) then
      col
    else c yy xx

/-- Write envelope of one `cv2.putText` call at baseline `(x, ty)`: glyphs of
the small tile font occupy a band around the baseline (ascent up to 10 pixels,
descent up to 2) starting at the text x position.  Glyph shapes are external;
only the written region and color are modelled. -/
def drawTextEnvelope (c : Canvas) (x ty w : Int) (col : Color) : Canvas :=
  fun yy xx =>
    if x ≤ xx ∧ xx ≤ x + w ∧ ty - 10 ≤ yy ∧ yy ≤ ty + 2 then col else c yy xx

/-- Embedding of the per-tile text loop (visualizer.py lines 156-169): up to
`n` remaining lines starting at baseline `ty`, stepping by the line height 14,
stopping once the next line would cross the bottom inset of the tile.  The
string truncation (lines 161-164) changes only glyph contents, never the write
region, and is not modelled. -/
def drawCellTexts (s : Sizes) (xOff yOff : Int) (col : Color) :
    Canvas → Int → Nat → Canvas
  | c, _, 0 => c
  | c, ty, n + 1 =>
    if ty + 14 > yOff + s.cellSize - textPadding then c
    else
      drawCellTexts s xOff yOff col
        (drawTextEnvelope c (xOff + textPadding) ty
          (s.cellSize - 2 * textPadding) col)
        (ty + 14) n

/-- Embedding of one iteration of the cell loop in `render` (visualizer.py
lines 116-169): tile fill with the dominant color (channel order reversed),
one-pixel border, then the text lines (seven candidate lines). -/
def drawCell (s : Sizes) (gridXOffset gridYOffset : Int) (c : Canvas)
    (cd : CellData) : Canvas :=
  let xOff : Int := gridXOffset + padding + cd.col * (s.cellSize + padding)
  let yOff : Int := gridYOffset + padding + cd.row * (s.cellSize + padding)
  let r : Int := pyInt (cd.dominantColor.1 * 255)
  let g : Int := pyInt (cd.dominantColor.2.1 * 255)
  let b : Int := pyInt (cd.dominantColor.2.2 * 255)
  let c1 := fillRect c xOff yOff (xOff + s.cellSize) (yOff + s.cellSize) (b, g, r)
  let c2 := strokeRect c1 xOff yOff (xOff + s.cellSize) (yOff + s.cellSize)
    (100, 100, 100)
  let textColor : Color :=
    if (1 : ℚ) / 2 < cd.brightness then (50, 50, 50) else (220, 220, 220)
  drawCellTexts s xOff yOff textColor c2 (yOff + 10) 7

/-- Embedding of `_draw_button` (visualizer.py lines 191-212): hover-dependent
fill, border, and the centered label (glyphs external, modelled as an in-rect
write envelope). -/
def drawButton (mouse : Option (Int × Int)) (c : Canvas) (b : Bounds)
    (normal hover : Color) : Canvas :=
  let hovered : Bool :=
    match mouse with
    | none => false
    | some (mx, my) => isPointInBounds mx my b
  let c1 := fillRect c b.x1 b.y1 b.x2 b.y2 (if hovered then hover else normal)
  let c2 := strokeRect c1 b.x1 b.y1 b.x2 b.y2 (120, 120, 120)
  fillRect c2 b.x1 b.y1 b.x2 b.y2 (255, 255, 255)

/-- Embedding of `_draw_buttons` (visualizer.py lines 175-189). -/
def drawButtons (v : VisState) (c : Canvas) : Canvas :=
  let c1 := drawButton v.mouse c v.layout.closeButtonBounds (60, 60, 200)
    (80, 80, 220)
  let c2 := drawButton v.mouse c1 v.layout.toggleCameraButtonBounds
    (60, 120, 60) (80, 150, 80)
  drawButton v.mouse c2 v.layout.toggleGridButtonBounds (120, 60, 60)
    (150, 80, 80)

/-- Embedding of `render` (visualizer.py lines 103-173): background fill,
optional camera blit (resize can raise on an empty frame), grid pass, button
bar.  Reading a never-assigned offset attribute is an `AttributeError`. -/
def render (v : VisState) (cells : List CellData) (frame : Option Frame) :
    Except PyError Canvas :=
  let c0 : Canvas := fun _ _ => (30, 30, 30)
  let step1 : Except PyError Canvas :=
    if v.showCamera then
      match frame with
      | some fr =>
        match cvResize fr v.sizes.cameraWidth v.sizes.cameraHeight with
        | Except.error e => Except.error e
        | Except.ok rf =>
          match v.layout.cameraYOffset with
          | some cy =>
            Except.ok
              (blitFrame c0 cy (Int.fdiv (v.layout.width - v.sizes.cameraWidth) 2)
                v.sizes.cameraHeight v.sizes.cameraWidth rf)
          | none => Except.error PyError.attributeError
      | none => Except.ok c0
    else Except.ok c0
  match step1 with
  | Except.error e => Except.error e
  | Except.ok c1 =>
    let step2 : Except PyError Canvas :=
      if v.showGrid then
        match v.layout.gridYOffset with
        | some gy =>
          Except.ok
            (cells.foldl
              (drawCell v.sizes (Int.fdiv (v.layout.width - v.sizes.gridWidth) 2) gy)
              c1)
        | none => Except.error PyError.attributeError
      else Except.ok c1
    match step2 with
    | Except.error e => Except.error e
    | Except.ok c2 => Except.ok (drawButtons v c2)

/-- Read one pixel of a render result; `none` when rendering raised. -/
def renderPixel (r : Except PyError Canvas) (y x : Int) : Option Color :=
  match r with
  | Except.ok c => some (c y x)
  | Except.error _ => none

/-- The desired expanded layout height in the words of the spec: leading
padding, then button bar, camera at 480, and grid at cell size 150, each block
followed by one padding. -/
def specDesiredTotalHeight (cfg : GridConfig) : Int :=
  padding + (buttonHeight + padding) + (480 + padding) +
    ((150 * cfg.rows + padding * (cfg.rows + 1)) + padding)

/-! Helper lemmas. -/

/-- The Mathlib floor on `ℚ` is the `Rat.floor` used in `pyInt`. -/
theorem ratFloor_eq_intFloor (q : ℚ) : Rat.floor q = ⌊q⌋ := rfl

/-- Python truncation of an integer value is that integer. -/
theorem pyInt_intCast (n : Int) : pyInt ((n : ℚ)) = n := by
  unfold pyInt
  by_cases h : ((n : ℚ)) < 0
  · rw [if_pos h, ratFloor_eq_intFloor, ← Int.cast_neg, Int.floor_intCast]
    ring
  · rw [if_neg h, ratFloor_eq_intFloor, Int.floor_intCast]

/-- Python truncation of the literal 150. -/
theorem pyInt_lit_150 : pyInt (150 : ℚ) = 150 := by
  have h := pyInt_intCast 150
  norm_num at h
  exact h

/-- Python truncation of the literal 640. -/
theorem pyInt_lit_640 : pyInt (640 : ℚ) = 640 := by
  have h := pyInt_intCast 640
  norm_num at h
  exact h

/-- Python truncation of the literal 480. -/
theorem pyInt_lit_480 : pyInt (480 : ℚ) = 480 := by
  have h := pyInt_intCast 480
  norm_num at h
  exact h

/-- Python truncation agrees with the floor on nonnegative values. -/
theorem pyInt_eq_floor_of_nonneg (q : ℚ) (h : 0 ≤ q) : pyInt q = ⌊q⌋ := by
  unfold pyInt
  rw [if_neg (not_lt.2 h), ratFloor_eq_intFloor]

/-- Python truncation of a nonnegative value is nonnegative. -/
theorem pyInt_nonneg (q : ℚ) (h : 0 ≤ q) : 0 ≤ pyInt q := by
  rw [pyInt_eq_floor_of_nonneg q h]
  exact Int.floor_nonneg.2 h

/-- Floor of an integer product scaled by an integer ratio, as an integer
floor division. -/
theorem floor_mul_div (d m t : Int) (ht : 0 < t) :
    ⌊(d : ℚ) * ((m : ℚ) / (t : ℚ))⌋ = Int.fdiv (d * m) t := by
  have h2 : ((t.toNat : ℕ) : ℚ) = (t : ℚ) := by
    exact_mod_cast congrArg (fun z : ℤ => (z : ℚ)) (Int.toNat_of_nonneg ht.le)
  have h1 : (d : ℚ) * ((m : ℚ) / (t : ℚ)) = ((d * m : Int) : ℚ) / ((t.toNat : ℕ) : ℚ) := by
    rw [h2]
    push_cast
    ring
  rw [h1, Rat.floor_intCast_div_natCast, Int.toNat_of_nonneg ht.le,
    Int.fdiv_eq_ediv _ ht.le]

/-- Python truncation of an integer product scaled by a positive integer
ratio, as an integer floor division. -/
theorem pyInt_mul_div (d m t : Int) (hd : 0 ≤ d) (hm : 0 ≤ m) (ht : 0 < t) :
    pyInt ((d : ℚ) * ((m : ℚ) / (t : ℚ))) = Int.fdiv (d * m) t := by
  have hq : 0 ≤ (d : ℚ) * ((m : ℚ) / (t : ℚ)) := by
    apply mul_nonneg
    · exact_mod_cast hd
    · apply div_nonneg
      · exact_mod_cast hm
      · exact_mod_cast ht.le
  rw [pyInt_eq_floor_of_nonneg _ hq, floor_mul_div d m t ht]

/-- Closed integer form of `_calculate_responsive_sizes`: the desired total
height is `565 + 160·rows`, and when it exceeds 900 each desired size `d`
becomes `⌊d·900 / total⌋`. -/
theorem calculateResponsiveSizes_closed (cfg : GridConfig) :
    calculateResponsiveSizes cfg =
      (if 900 < 565 + 160 * cfg.rows then
        { cellSize := Int.fdiv 135000 (565 + 160 * cfg.rows)
          cameraWidth := Int.fdiv 576000 (565 + 160 * cfg.rows)
          cameraHeight := Int.fdiv 432000 (565 + 160 * cfg.rows)
          gridWidth := Int.fdiv 135000 (565 + 160 * cfg.rows) * cfg.cols + 10 * (cfg.cols + 1)
          gridHeight := Int.fdiv 135000 (565 + 160 * cfg.rows) * cfg.rows + 10 * (cfg.rows + 1) }
      else
        { cellSize := 150
          cameraWidth := 640
          cameraHeight := 480
          gridWidth := 150 * cfg.cols + 10 * (cfg.cols + 1)
          gridHeight := 150 * cfg.rows + 10 * (cfg.rows + 1) }) := by
  have hts : (10 + 480 + 10 + (150 * cfg.rows + 10 * (cfg.rows + 1)) + 10 + 35 + 10 : Int)
      = 565 + 160 * cfg.rows := by ring
  simp only [calculateResponsiveSizes, padding, buttonHeight, maxHeight, hts]
  by_cases h : (900 : Int) < 565 + 160 * cfg.rows
  · rw [if_pos h, if_pos h,
      pyInt_mul_div 150 900 _ (by norm_num) (by norm_num) (by omega),
      pyInt_mul_div 640 900 _ (by norm_num) (by norm_num) (by omega),
      pyInt_mul_div 480 900 _ (by norm_num) (by norm_num) (by omega)]
    norm_num
  · rw [if_neg h, if_neg h]
    norm_num [pyInt_eq_floor_of_nonneg]

/-- Concrete sizes for the 2 by 3 grid: the desired height 885 does not exceed
900, so no scaling happens. -/
theorem sizes_two_three :
    calculateResponsiveSizes ⟨2, 3⟩ = ⟨150, 640, 480, 490, 330⟩ := by
  show calculateResponsiveSizes { rows := 2, cols := 3 } = _
  norm_num [calculateResponsiveSizes, padding, buttonHeight, maxHeight,
    pyInt_lit_150, pyInt_lit_640, pyInt_lit_480]

/-- Claim C1, counterexample: from the freshly constructed 2 by 3 visualizer, a
pointer down at (150, 20) lands inside the Close bounds and sets shouldClose;
a later pointer down at (300, 20) lands inside the toggle-camera bounds and
still flips showCamera, so the visible state changes after CLOSING was
entered. -/
theorem c1_counterexample :
    isPointInBounds 150 20 (construct ⟨2, 3⟩ true).layout.closeButtonBounds = true ∧
    (stepDown (construct ⟨2, 3⟩ true) 150 20).shouldClose = true ∧
    (stepDown (construct ⟨2, 3⟩ true) 150 20).showCamera = true ∧
    (stepDown (stepDown (construct ⟨2, 3⟩ true) 150 20) 300 20).shouldClose = true ∧
    (stepDown (stepDown (construct ⟨2, 3⟩ true) 150 20) 300 20).showCamera = false := by
  simp only [construct, sizes_two_three]
  decide

/-- Claim C1 (amended): once shouldClose is true it stays true under every
later pointer event, and a pointerMove never changes showCamera or showGrid;
but a pointerDown can still change them, so the unchanged-visibility guarantee
holds only for pointerDown events that land outside the two toggle-button
bounds. -/
theorem c1_closing_absorption (v : VisState) (e : MouseEvent) (x y : Int)
    (hclosed : v.shouldClose = true)
    (hcam : isPointInBounds x y v.layout.toggleCameraButtonBounds = false)
    (hgrid : isPointInBounds x y v.layout.toggleGridButtonBounds = false) :
    (mouseCallback v e).shouldClose = true ∧
    (mouseCallback v (MouseEvent.mousemove x y)).showCamera = v.showCamera ∧
    (mouseCallback v (MouseEvent.mousemove x y)).showGrid = v.showGrid ∧
    (stepDown v x y).showCamera = v.showCamera ∧
    (stepDown v x y).showGrid = v.showGrid := by
  refine ⟨?_, rfl, rfl, ?_, ?_⟩
  · cases e with
    | mousemove a b => exact hclosed
    | lbuttondown a b =>
      simp only [mouseCallback]
      split
      · rfl
      · split
        · exact hclosed
        · split
          · exact hclosed
          · exact hclosed
  · simp only [stepDown, mouseCallback, hcam, hgrid, Bool.false_eq_true,
      if_false]
    split
    · rfl
    · rfl
  · simp only [stepDown, mouseCallback, hcam, hgrid, Bool.false_eq_true,
      if_false]
    split
    · rfl
    · rfl

/-- Claim C1, witness: the amended absorption facts hold concretely for the 2
by 3 visualizer after the Close button was pressed at (150, 20), a move event
at (7, 8), and a pointer down at (0, 0) which is outside both toggle-button
bounds. -/
theorem c1_witness :
    (mouseCallback (stepDown (construct ⟨2, 3⟩ true) 150 20)
        (MouseEvent.mousemove 7 8)).shouldClose = true ∧
    (mouseCallback (stepDown (construct ⟨2, 3⟩ true) 150 20)
        (MouseEvent.mousemove 0 0)).showCamera =
      (stepDown (construct ⟨2, 3⟩ true) 150 20).showCamera ∧
    (mouseCallback (stepDown (construct ⟨2, 3⟩ true) 150 20)
        (MouseEvent.mousemove 0 0)).showGrid =
      (stepDown (construct ⟨2, 3⟩ true) 150 20).showGrid ∧
    (stepDown (stepDown (construct ⟨2, 3⟩ true) 150 20) 0 0).showCamera =
      (stepDown (construct ⟨2, 3⟩ true) 150 20).showCamera ∧
    (stepDown (stepDown (construct ⟨2, 3⟩ true) 150 20) 0 0).showGrid =
      (stepDown (construct ⟨2, 3⟩ true) 150 20).showGrid :=
  c1_closing_absorption (stepDown (construct ⟨2, 3⟩ true) 150 20)
    (MouseEvent.mousemove 7 8) 0 0
    (by simp only [construct, sizes_two_three]; decide)
    (by simp only [construct, sizes_two_three]; decide)
    (by simp only [construct, sizes_two_three]; decide)

/-- The Except variant of the sizing pass never actually raises: the division
is guarded by `totalDesiredHeight > maxHeight`, so its divisor is nonzero. -/
theorem calculateResponsiveSizesE_ok (cfg : GridConfig) :
    calculateResponsiveSizesE cfg = Except.ok (calculateResponsiveSizes cfg) := by
  simp only [calculateResponsiveSizesE, calculateResponsiveSizes, pydiv]
  by_cases h : (padding + 480 + padding + (150 * cfg.rows + padding * (cfg.rows + 1)) +
      padding + buttonHeight + padding : Int) > maxHeight
  · rw [if_pos h, if_pos h, if_neg ?hz]
    case hz =>
      have ht0 : (0 : Int) < padding + 480 + padding +
          (150 * cfg.rows + padding * (cfg.rows + 1)) + padding + buttonHeight + padding := by
        unfold maxHeight at h
        omega
      intro hc
      rw [Int.cast_eq_zero] at hc
      omega
    rfl
  · rw [if_neg h, if_neg h]
    rfl

/-- Claim C2, counterexample: with rows = 0 (≤ 0) the constructor completes
normally instead of failing. -/
theorem c2_counterexample :
    constructE ⟨0, 3⟩ true = Except.ok (construct ⟨0, 3⟩ true) := by
  simp only [constructE, calculateResponsiveSizesE_ok]
  rfl

/-- Claim C2 (amended): construction never validates the GridConfig and never
fails, whatever the rows and cols values; a degenerate configuration yields a
degenerate geometry rather than an error at construction time. -/
theorem c2_no_fail_fast (cfg : GridConfig) (b : Bool) :
    constructE cfg b = Except.ok (construct cfg b) := by
  simp only [constructE, calculateResponsiveSizesE_ok]
  rfl

/-- Claim C4: if the desired expanded layout height (leading padding, button
bar, camera at 480, grid at cell size 150, each block followed by one padding)
exceeds 900, the stored cell size is the floor of 150 times the scale factor
900 over that height, and the stored camera width is the floor of 640 times
it; otherwise both keep their desired values. -/
theorem c4_initial_scaling (cfg : GridConfig) :
    (calculateResponsiveSizes cfg).cellSize =
      (if 900 < specDesiredTotalHeight cfg then
        ⌊(150 : ℚ) * ((900 : ℚ) / (specDesiredTotalHeight cfg : ℚ))⌋
      else 150) ∧
    (calculateResponsiveSizes cfg).cameraWidth =
      (if 900 < specDesiredTotalHeight cfg then
        ⌊(640 : ℚ) * ((900 : ℚ) / (specDesiredTotalHeight cfg : ℚ))⌋
      else 640) := by
  have hspec : specDesiredTotalHeight cfg = 565 + 160 * cfg.rows := by
    unfold specDesiredTotalHeight padding buttonHeight
    ring
  rw [calculateResponsiveSizes_closed, hspec]
  by_cases h : (900 : Int) < 565 + 160 * cfg.rows
  · rw [if_pos h, if_pos h, if_pos h,
      show ((150 : ℚ)) = (((150 : Int)) : ℚ) by norm_num,
      show ((900 : ℚ)) = (((900 : Int)) : ℚ) by norm_num,
      show ((640 : ℚ)) = (((640 : Int)) : ℚ) by norm_num,
      floor_mul_div 150 900 _ (by omega), floor_mul_div 640 900 _ (by omega)]
    norm_num
  · rw [if_neg h, if_neg h, if_neg h]
    exact ⟨rfl, rfl⟩

/-- Claim C5: the stored grid dimensions follow the cell-size formula with
padding 10, for every positive grid configuration. -/
theorem c5_grid_dimensions (cfg : GridConfig) (hr : 1 ≤ cfg.rows)
    (hc : 1 ≤ cfg.cols) :
    (calculateResponsiveSizes cfg).gridWidth =
      (calculateResponsiveSizes cfg).cellSize * cfg.cols + padding * (cfg.cols + 1) ∧
    (calculateResponsiveSizes cfg).gridHeight =
      (calculateResponsiveSizes cfg).cellSize * cfg.rows + padding * (cfg.rows + 1) :=
  ⟨rfl, rfl⟩

/-- Claim C5, witness: the grid-dimension formula instantiated at the 2 by 3
grid. -/
theorem c5_witness :
    (calculateResponsiveSizes ⟨2, 3⟩).gridWidth =
      (calculateResponsiveSizes ⟨2, 3⟩).cellSize * 3 + padding * (3 + 1) ∧
    (calculateResponsiveSizes ⟨2, 3⟩).gridHeight =
      (calculateResponsiveSizes ⟨2, 3⟩).cellSize * 2 + padding * (2 + 1) :=
  c5_grid_dimensions ⟨2, 3⟩ (by norm_num) (by norm_num)

/-- Unfolded height formula of `_recalculate_layout`. -/
theorem recalculateLayout_height (s : Sizes) (sc sg : Bool) (old : Layout) :
    (recalculateLayout s sc sg old).height =
      padding + buttonHeight + padding +
        (if sc then s.cameraHeight + padding else 0) +
        (if sg then s.gridHeight + padding else 0) := by
  simp only [recalculateLayout]
  cases sc <;> cases sg <;> simp <;> ring

/-- The stored sizes are all nonnegative for a nonnegative row count. -/
theorem sizes_nonneg (cfg : GridConfig) (hr : 0 ≤ cfg.rows) :
    0 ≤ (calculateResponsiveSizes cfg).cellSize ∧
    0 ≤ (calculateResponsiveSizes cfg).cameraHeight ∧
    0 ≤ (calculateResponsiveSizes cfg).gridHeight := by
  rw [calculateResponsiveSizes_closed]
  by_cases h : (900 : Int) < 565 + 160 * cfg.rows
  · rw [if_pos h]
    refine ⟨Int.fdiv_nonneg (by norm_num) (by omega),
      Int.fdiv_nonneg (by norm_num) (by omega), ?_⟩
    have hcell : 0 ≤ Int.fdiv 135000 (565 + 160 * cfg.rows) :=
      Int.fdiv_nonneg (by norm_num) (by omega)
    have hmul : 0 ≤ Int.fdiv 135000 (565 + 160 * cfg.rows) * cfg.rows :=
      mul_nonneg hcell hr
    show 0 ≤ Int.fdiv 135000 (565 + 160 * cfg.rows) * cfg.rows + 10 * (cfg.rows + 1)
    omega
  · rw [if_neg h]
    refine ⟨by norm_num, by norm_num, ?_⟩
    have hmul : (0 : Int) ≤ 150 * cfg.rows := by positivity
    show (0 : Int) ≤ 150 * cfg.rows + 10 * (cfg.rows + 1)
    omega

/-- Claim C7: for every combination of the visibility flags, the recomputed
canvas height is at least the button-bar height plus two paddings. -/
theorem c7_min_canvas_height (cfg : GridConfig) (sc sg : Bool) (old : Layout)
    (hr : 0 < cfg.rows) (hc : 0 < cfg.cols) :
    buttonHeight + 2 * padding ≤
      (recalculateLayout (calculateResponsiveSizes cfg) sc sg old).height := by
  obtain ⟨h1, h2, h3⟩ := sizes_nonneg cfg hr.le
  rw [recalculateLayout_height]
  unfold padding buttonHeight
  split_ifs <;> omega

/-- Claim C7, witness: the height bound instantiated for the 2 by 3 grid with
both blocks hidden. -/
theorem c7_witness :
    buttonHeight + 2 * padding ≤
      (recalculateLayout (calculateResponsiveSizes ⟨2, 3⟩) false false
        initialLayout).height :=
  c7_min_canvas_height ⟨2, 3⟩ false false initialLayout (by norm_num) (by norm_num)

/-- Claim C8: the hit test is inclusive rectangle containment, true at all
four boundary corners and false one pixel outside each edge with the other
coordinate in range. -/
theorem c8_hit_test (b : Bounds) (x y : Int) (hx : b.x1 ≤ b.x2)
    (hy : b.y1 ≤ b.y2) :
    (isPointInBounds x y b = true ↔
      (b.x1 ≤ x ∧ x ≤ b.x2 ∧ b.y1 ≤ y ∧ y ≤ b.y2)) ∧
    isPointInBounds b.x1 b.y1 b = true ∧
    isPointInBounds b.x2 b.y1 b = true ∧
    isPointInBounds b.x1 b.y2 b = true ∧
    isPointInBounds b.x2 b.y2 b = true ∧
    isPointInBounds (b.x1 - 1) b.y1 b = false ∧
    isPointInBounds (b.x2 + 1) b.y1 b = false ∧
    isPointInBounds b.x1 (b.y1 - 1) b = false ∧
    isPointInBounds b.x1 (b.y2 + 1) b = false := by
  have hiff : ∀ px py : Int, isPointInBounds px py b = true ↔
      (b.x1 ≤ px ∧ px ≤ b.x2 ∧ b.y1 ≤ py ∧ py ≤ b.y2) := by
    intro px py
    unfold isPointInBounds
    simp only [Bool.and_eq_true, decide_eq_true_eq]
    tauto
  refine ⟨hiff x y, ?_, ?_, ?_, ?_, ?_, ?_, ?_, ?_⟩
  · exact (hiff _ _).2 (by omega)
  · exact (hiff _ _).2 (by omega)
  · exact (hiff _ _).2 (by omega)
  · exact (hiff _ _).2 (by omega)
  · exact Bool.eq_false_iff.2 fun hc => by have := (hiff _ _).1 hc; omega
  · exact Bool.eq_false_iff.2 fun hc => by have := (hiff _ _).1 hc; omega
  · exact Bool.eq_false_iff.2 fun hc => by have := (hiff _ _).1 hc; omega
  · exact Bool.eq_false_iff.2 fun hc => by have := (hiff _ _).1 hc; omega

/-- Claim C8, witness: the hit-test facts instantiated at the rectangle
(0, 0, 2, 3) and the point (1, 2). -/
theorem c8_witness :
    (isPointInBounds 1 2 ⟨0, 0, 2, 3⟩ = true ↔
      ((0 : Int) ≤ 1 ∧ (1 : Int) ≤ 2 ∧ (0 : Int) ≤ 2 ∧ (2 : Int) ≤ 3)) ∧
    isPointInBounds 0 0 ⟨0, 0, 2, 3⟩ = true ∧
    isPointInBounds 2 0 ⟨0, 0, 2, 3⟩ = true ∧
    isPointInBounds 0 3 ⟨0, 0, 2, 3⟩ = true ∧
    isPointInBounds 2 3 ⟨0, 0, 2, 3⟩ = true ∧
    isPointInBounds (0 - 1) 0 ⟨0, 0, 2, 3⟩ = false ∧
    isPointInBounds (2 + 1) 0 ⟨0, 0, 2, 3⟩ = false ∧
    isPointInBounds 0 (0 - 1) ⟨0, 0, 2, 3⟩ = false ∧
    isPointInBounds 0 (3 + 1) ⟨0, 0, 2, 3⟩ = false :=
  c8_hit_test ⟨0, 0, 2, 3⟩ 1 2 (by norm_num) (by norm_num)

/-- Claim C9: after every layout recomputation the three buttons form equal
width, left-to-right, non-overlapping rectangles on one row, and the row is
centered: its left x is the floor-midpoint offset of the canvas width minus
the row width, and its right end sits the row width further. -/
theorem c9_button_row (s : Sizes) (sc sg : Bool) (old : Layout) :
    (recalculateLayout s sc sg old).closeButtonBounds.x2 -
        (recalculateLayout s sc sg old).closeButtonBounds.x1 = buttonWidth ∧
    (recalculateLayout s sc sg old).toggleCameraButtonBounds.x2 -
        (recalculateLayout s sc sg old).toggleCameraButtonBounds.x1 = buttonWidth ∧
    (recalculateLayout s sc sg old).toggleGridButtonBounds.x2 -
        (recalculateLayout s sc sg old).toggleGridButtonBounds.x1 = buttonWidth ∧
    (recalculateLayout s sc sg old).closeButtonBounds.x2 <
      (recalculateLayout s sc sg old).toggleCameraButtonBounds.x1 ∧
    (recalculateLayout s sc sg old).toggleCameraButtonBounds.x2 <
      (recalculateLayout s sc sg old).toggleGridButtonBounds.x1 ∧
    (recalculateLayout s sc sg old).closeButtonBounds.y1 =
      (recalculateLayout s sc sg old).toggleCameraButtonBounds.y1 ∧
    (recalculateLayout s sc sg old).closeButtonBounds.y1 =
      (recalculateLayout s sc sg old).toggleGridButtonBounds.y1 ∧
    (recalculateLayout s sc sg old).closeButtonBounds.y2 =
      (recalculateLayout s sc sg old).toggleCameraButtonBounds.y2 ∧
    (recalculateLayout s sc sg old).closeButtonBounds.y2 =
      (recalculateLayout s sc sg old).toggleGridButtonBounds.y2 ∧
    (recalculateLayout s sc sg old).closeButtonBounds.x1 =
      Int.fdiv ((recalculateLayout s sc sg old).width -
        (3 * buttonWidth + 2 * buttonSpacing)) 2 ∧
    (recalculateLayout s sc sg old).toggleGridButtonBounds.x2 =
      (recalculateLayout s sc sg old).closeButtonBounds.x1 +
        (3 * buttonWidth + 2 * buttonSpacing) := by
  simp only [recalculateLayout]
  unfold buttonWidth buttonSpacing
  refine ⟨by omega, by omega, by omega, by omega, by omega, by trivial,
    by trivial, by trivial, by trivial, ?_, by omega⟩
  norm_num

/-- Claim C10: with both blocks hidden the content width falls back to 400,
the canvas width 420 is smaller than the button row width 440, the Close
button starts at x = -10, and the ToggleGrid button ends at x = 430, past the
last canvas column 419. -/
theorem c10_row_wider_than_canvas (s : Sizes) (old : Layout) :
    (recalculateLayout s false false old).width = 420 ∧
    (recalculateLayout s false false old).width <
      3 * buttonWidth + 2 * buttonSpacing ∧
    (recalculateLayout s false false old).closeButtonBounds.x1 = -10 ∧
    (recalculateLayout s false false old).closeButtonBounds.x1 < 0 ∧
    (recalculateLayout s false false old).toggleGridButtonBounds.x2 = 430 ∧
    (recalculateLayout s false false old).width - 1 <
      (recalculateLayout s false false old).toggleGridButtonBounds.x2 := by
  simp only [recalculateLayout]
  unfold buttonWidth buttonSpacing padding
  have hfd : Int.fdiv (400 + 2 * 10 - (140 * 3 + 10 * 2)) 2 = -10 := by decide
  norm_num at hfd ⊢
  omega

/-- The flag-masked geometry recomputed by `_recalculate_layout` does not
depend on the previous layout: every recomputed field is a function of the
sizes and the flags alone, and the stale offsets of hidden blocks are masked. -/
theorem visibleGeometry_recalc_pure (s : Sizes) (c g : Bool) (m1 m2 : Layout) :
    visibleGeometry c g (recalculateLayout s c g m1) =
      visibleGeometry c g (recalculateLayout s c g m2) := by
  cases c <;> cases g <;> simp [visibleGeometry, recalculateLayout]

/-- Claim C6, counterexample: the stored LayoutGeometry is not a pure function
of config and flags, and a toggle round trip does not restore it exactly.
First, two event histories from the same 2 by 3 visualizer both end with
showCamera true and showGrid false but different stored gridYOffset values
(545 versus 55).  Second, starting with the camera hidden at construction,
clicking the camera toggle twice restores both flags yet changes the stored
cameraYOffset from unset to 55. -/
theorem c6_counterexample :
    (stepDown (construct ⟨2, 3⟩ true) 420 20).showCamera = true ∧
    (stepDown (construct ⟨2, 3⟩ true) 420 20).showGrid = false ∧
    (stepDown (stepDown (stepDown (construct ⟨2, 3⟩ true) 300 20) 350 20) 150 20).showCamera = true ∧
    (stepDown (stepDown (stepDown (construct ⟨2, 3⟩ true) 300 20) 350 20) 150 20).showGrid = false ∧
    (stepDown (construct ⟨2, 3⟩ true) 420 20).sizes =
      (stepDown (stepDown (stepDown (construct ⟨2, 3⟩ true) 300 20) 350 20) 150 20).sizes ∧
    (stepDown (construct ⟨2, 3⟩ true) 420 20).layout.gridYOffset = some 545 ∧
    (stepDown (stepDown (stepDown (construct ⟨2, 3⟩ true) 300 20) 350 20) 150 20).layout.gridYOffset = some 55 ∧
    (stepDown (construct ⟨2, 3⟩ true) 420 20).layout ≠
      (stepDown (stepDown (stepDown (construct ⟨2, 3⟩ true) 300 20) 350 20) 150 20).layout ∧
    (construct ⟨2, 3⟩ false).layout.cameraYOffset = none ∧
    (stepDown (stepDown (construct ⟨2, 3⟩ false) 200 20) 300 20).showCamera = false ∧
    (stepDown (stepDown (construct ⟨2, 3⟩ false) 200 20) 300 20).showGrid = true ∧
    (stepDown (stepDown (construct ⟨2, 3⟩ false) 200 20) 300 20).layout.cameraYOffset = some 55 ∧
    (stepDown (stepDown (construct ⟨2, 3⟩ false) 200 20) 300 20).layout ≠
      (construct ⟨2, 3⟩ false).layout := by
  simp only [construct, sizes_two_three]
  decide

/-- Claim C6 (amended): for every reachable state (one whose layout came from
`_recalculate_layout` for its own flags), pointerDown on the camera toggle
twice in a row, or on the grid toggle twice in a row, restores both visibility
flags and restores the LayoutGeometry with optional offsets, that is, all
recomputed fields and the offsets of the currently visible blocks
(`visibleGeometry`), exactly; and that masked geometry is a pure function of
the sizes and the two flags.  Only the stored offset attribute of a hidden
block can keep a stale, history-dependent value. -/
theorem c6_visible_geometry_roundtrip
    (v : VisState) (old : Layout) (x y a b x2 y2 a2 b2 : Int)
    (s0 : Sizes) (c0 g0 : Bool) (m1 m2 : Layout)
    (hv : v.layout = recalculateLayout v.sizes v.showCamera v.showGrid old)
    (h1 : isPointInBounds x y v.layout.closeButtonBounds = false)
    (h2 : isPointInBounds x y v.layout.toggleCameraButtonBounds = true)
    (h3 : isPointInBounds a b (stepDown v x y).layout.closeButtonBounds = false)
    (h4 : isPointInBounds a b (stepDown v x y).layout.toggleCameraButtonBounds = true)
    (h5 : isPointInBounds x2 y2 v.layout.closeButtonBounds = false)
    (h6 : isPointInBounds x2 y2 v.layout.toggleCameraButtonBounds = false)
    (h7 : isPointInBounds x2 y2 v.layout.toggleGridButtonBounds = true)
    (h8 : isPointInBounds a2 b2 (stepDown v x2 y2).layout.closeButtonBounds = false)
    (h9 : isPointInBounds a2 b2 (stepDown v x2 y2).layout.toggleCameraButtonBounds = false)
    (h10 : isPointInBounds a2 b2 (stepDown v x2 y2).layout.toggleGridButtonBounds = true) :
    (stepDown (stepDown v x y) a b).showCamera = v.showCamera ∧
    (stepDown (stepDown v x y) a b).showGrid = v.showGrid ∧
    visibleGeometry (stepDown (stepDown v x y) a b).showCamera
        (stepDown (stepDown v x y) a b).showGrid
        (stepDown (stepDown v x y) a b).layout =
      visibleGeometry v.showCamera v.showGrid v.layout ∧
    (stepDown (stepDown v x2 y2) a2 b2).showCamera = v.showCamera ∧
    (stepDown (stepDown v x2 y2) a2 b2).showGrid = v.showGrid ∧
    visibleGeometry (stepDown (stepDown v x2 y2) a2 b2).showCamera
        (stepDown (stepDown v x2 y2) a2 b2).showGrid
        (stepDown (stepDown v x2 y2) a2 b2).layout =
      visibleGeometry v.showCamera v.showGrid v.layout ∧
    visibleGeometry c0 g0 (recalculateLayout s0 c0 g0 m1) =
      visibleGeometry c0 g0 (recalculateLayout s0 c0 g0 m2) := by
  have e1 : stepDown v x y =
      { v with
        showCamera := !v.showCamera
        layout := recalculateLayout v.sizes (!v.showCamera) v.showGrid v.layout } := by
    simp [stepDown, mouseCallback, h1, h2]
  have e2 : stepDown (stepDown v x y) a b =
      { v with
        showCamera := !(!v.showCamera)
        layout := recalculateLayout v.sizes (!(!v.showCamera)) v.showGrid
          (recalculateLayout v.sizes (!v.showCamera) v.showGrid v.layout) } := by
    rw [e1] at h3 h4 ⊢
    simp [stepDown, mouseCallback, h3, h4]
  have f1 : stepDown v x2 y2 =
      { v with
        showGrid := !v.showGrid
        layout := recalculateLayout v.sizes v.showCamera (!v.showGrid) v.layout } := by
    simp [stepDown, mouseCallback, h5, h6, h7]
  have f2 : stepDown (stepDown v x2 y2) a2 b2 =
      { v with
        showGrid := !(!v.showGrid)
        layout := recalculateLayout v.sizes v.showCamera (!(!v.showGrid))
          (recalculateLayout v.sizes v.showCamera (!v.showGrid) v.layout) } := by
    rw [f1] at h8 h9 h10 ⊢
    simp [stepDown, mouseCallback, h8, h9, h10]
  rw [e2, f2, Bool.not_not, Bool.not_not]
  refine ⟨rfl, rfl, ?_, rfl, rfl, ?_, visibleGeometry_recalc_pure s0 c0 g0 m1 m2⟩
  · rw [hv]
    exact visibleGeometry_recalc_pure v.sizes v.showCamera v.showGrid _ old
  · rw [hv]
    exact visibleGeometry_recalc_pure v.sizes v.showCamera v.showGrid _ old

/-- Claim C6, witness: the round trip and purity facts hold concretely for the
2 by 3 visualizer, toggling the camera twice via clicks at (300, 20) and the
grid twice via clicks at (420, 20). -/
theorem c6_witness :
    (stepDown (stepDown (construct ⟨2, 3⟩ true) 300 20) 300 20).showCamera =
      (construct ⟨2, 3⟩ true).showCamera ∧
    (stepDown (stepDown (construct ⟨2, 3⟩ true) 300 20) 300 20).showGrid =
      (construct ⟨2, 3⟩ true).showGrid ∧
    visibleGeometry
        (stepDown (stepDown (construct ⟨2, 3⟩ true) 300 20) 300 20).showCamera
        (stepDown (stepDown (construct ⟨2, 3⟩ true) 300 20) 300 20).showGrid
        (stepDown (stepDown (construct ⟨2, 3⟩ true) 300 20) 300 20).layout =
      visibleGeometry (construct ⟨2, 3⟩ true).showCamera
        (construct ⟨2, 3⟩ true).showGrid (construct ⟨2, 3⟩ true).layout ∧
    (stepDown (stepDown (construct ⟨2, 3⟩ true) 420 20) 420 20).showCamera =
      (construct ⟨2, 3⟩ true).showCamera ∧
    (stepDown (stepDown (construct ⟨2, 3⟩ true) 420 20) 420 20).showGrid =
      (construct ⟨2, 3⟩ true).showGrid ∧
    visibleGeometry
        (stepDown (stepDown (construct ⟨2, 3⟩ true) 420 20) 420 20).showCamera
        (stepDown (stepDown (construct ⟨2, 3⟩ true) 420 20) 420 20).showGrid
        (stepDown (stepDown (construct ⟨2, 3⟩ true) 420 20) 420 20).layout =
      visibleGeometry (construct ⟨2, 3⟩ true).showCamera
        (construct ⟨2, 3⟩ true).showGrid (construct ⟨2, 3⟩ true).layout ∧
    visibleGeometry true false
        (recalculateLayout ⟨150, 640, 480, 490, 330⟩ true false initialLayout) =
      visibleGeometry true false
        (recalculateLayout ⟨150, 640, 480, 490, 330⟩ true false
          (construct ⟨2, 3⟩ true).layout) :=
  c6_visible_geometry_roundtrip (construct ⟨2, 3⟩ true) initialLayout
    300 20 300 20 420 20 420 20 ⟨150, 640, 480, 490, 330⟩ true false
    initialLayout (construct ⟨2, 3⟩ true).layout rfl
    (by simp only [construct, sizes_two_three]; decide)
    (by simp only [construct, sizes_two_three]; decide)
    (by simp only [construct, sizes_two_three]; decide)
    (by simp only [construct, sizes_two_three]; decide)
    (by simp only [construct, sizes_two_three]; decide)
    (by simp only [construct, sizes_two_three]; decide)
    (by simp only [construct, sizes_two_three]; decide)
    (by simp only [construct, sizes_two_three]; decide)
    (by simp only [construct, sizes_two_three]; decide)
    (by simp only [construct, sizes_two_three]; decide)

/-- The stored cell size and camera height are nonnegative for every
configuration: the scale factor is always in (0, 1]. -/
theorem sizes_cell_nonneg (cfg : GridConfig) :
    0 ≤ (calculateResponsiveSizes cfg).cellSize ∧
    0 ≤ (calculateResponsiveSizes cfg).cameraHeight := by
  rw [calculateResponsiveSizes_closed]
  by_cases h : (900 : Int) < 565 + 160 * cfg.rows
  · rw [if_pos h]
    exact ⟨Int.fdiv_nonneg (by norm_num) (by omega),
      Int.fdiv_nonneg (by norm_num) (by omega)⟩
  · rw [if_neg h]
    exact ⟨by norm_num, by norm_num⟩

/-- A filled rectangle leaves rows outside its y range unchanged. -/
theorem fillRect_untouched (c : Canvas) (x1 y1 x2 y2 : Int) (col : Color)
    (y x : Int) (h : y < y1 ∨ y2 < y) :
    fillRect c x1 y1 x2 y2 col y x = c y x := by
  unfold fillRect
  rw [if_neg]
  omega

/-- A rectangle border leaves rows outside its y range unchanged. -/
theorem strokeRect_untouched (c : Canvas) (x1 y1 x2 y2 : Int) (col : Color)
    (y x : Int) (h : y < y1 ∨ y2 < y) :
    strokeRect c x1 y1 x2 y2 col y x = c y x := by
  unfold strokeRect
  rw [if_neg]
  omega

/-- A text envelope leaves rows above its band unchanged. -/
theorem drawTextEnvelope_untouched (c : Canvas) (x0 ty w : Int) (col : Color)
    (y x : Int) (h : y < ty - 10) :
    drawTextEnvelope c x0 ty w col y x = c y x := by
  unfold drawTextEnvelope
  rw [if_neg]
  omega

/-- The tile text loop leaves rows above its first baseline band unchanged. -/
theorem drawCellTexts_untouched (s : Sizes) (xOff yOff : Int) (col : Color)
    (y x : Int) : ∀ (n : Nat) (c : Canvas) (ty : Int), y < ty - 10 →
    drawCellTexts s xOff yOff col c ty n y x = c y x := by
  intro n
  induction n with
  | zero => intro c ty _; rfl
  | succ k ih =>
    intro c ty h
    unfold drawCellTexts
    split
    · rfl
    · rw [ih _ (ty + 14) (by omega)]
      exact drawTextEnvelope_untouched c (xOff + textPadding) ty
        (s.cellSize - 2 * textPadding) col y x h

/-- One grid tile leaves every row above the grid area unchanged, provided the
cell row index is nonnegative and the cell size is nonnegative. -/
theorem drawCell_untouched (s : Sizes) (gx gy : Int) (c : Canvas)
    (cd : CellData) (y x : Int) (hrow : 0 ≤ cd.row) (hcell : 0 ≤ s.cellSize)
    (hy : y < gy + padding) :
    drawCell s gx gy c cd y x = c y x := by
  have hpad : (0 : Int) < padding := by unfold padding; omega
  have hoff : gy + padding ≤ gy + padding + cd.row * (s.cellSize + padding) := by
    have hm : 0 ≤ cd.row * (s.cellSize + padding) :=
      mul_nonneg hrow (by omega)
    omega
  simp only [drawCell]
  rw [drawCellTexts_untouched s _ _ _ y x 7 _ _ (by omega),
    strokeRect_untouched _ _ _ _ _ _ y x (Or.inl (by omega)),
    fillRect_untouched _ _ _ _ _ _ y x (Or.inl (by omega))]

/-- The whole cell loop leaves every row above the grid area unchanged. -/
theorem foldl_drawCell_untouched (s : Sizes) (gx gy : Int) (y x : Int)
    (hcell : 0 ≤ s.cellSize) (hy : y < gy + padding) :
    ∀ (cells : List CellData) (c : Canvas), (∀ cd ∈ cells, 0 ≤ cd.row) →
      (cells.foldl (drawCell s gx gy) c) y x = c y x := by
  intro cells
  induction cells with
  | nil => intro c _; rfl
  | cons hd tl ih =>
    intro c hall
    rw [List.foldl_cons,
      ih _ (fun cd hm => hall cd (List.mem_cons_of_mem hd hm)),
      drawCell_untouched s gx gy c hd y x (hall hd (List.mem_cons_self hd tl))
        hcell hy]

/-- One button leaves rows below its bottom edge unchanged. -/
theorem drawButton_untouched (m : Option (Int × Int)) (c : Canvas) (b : Bounds)
    (nc hc : Color) (y x : Int) (h : b.y2 < y) :
    drawButton m c b nc hc y x = c y x := by
  simp only [drawButton]
  rw [fillRect_untouched _ _ _ _ _ _ y x (Or.inr h),
    strokeRect_untouched _ _ _ _ _ _ y x (Or.inr h),
    fillRect_untouched _ _ _ _ _ _ y x (Or.inr h)]

/-- The button bar leaves rows below all three buttons unchanged. -/
theorem drawButtons_untouched (v : VisState) (c : Canvas) (y x : Int)
    (h1 : v.layout.closeButtonBounds.y2 < y)
    (h2 : v.layout.toggleCameraButtonBounds.y2 < y)
    (h3 : v.layout.toggleGridButtonBounds.y2 < y) :
    drawButtons v c y x = c y x := by
  simp only [drawButtons]
  rw [drawButton_untouched _ _ _ _ _ y x h3,
    drawButton_untouched _ _ _ _ _ y x h2,
    drawButton_untouched _ _ _ _ _ y x h1]

/-- With the camera shown but no frame supplied and the grid shown, `render`
returns the background canvas overlaid with the grid pass and the buttons. -/
theorem render_none_ok (v : VisState) (cells : List CellData) (gy : Int)
    (hc : v.showCamera = true) (hg : v.showGrid = true)
    (hgy : v.layout.gridYOffset = some gy) :
    render v cells none = Except.ok (drawButtons v (cells.foldl
      (drawCell v.sizes (Int.fdiv (v.layout.width - v.sizes.gridWidth) 2) gy)
      (fun _ _ => (30, 30, 30)))) := by
  simp only [render, hc, hg, hgy, eq_self_iff_true, if_true]

/-- Claim C3, counterexample: with the camera shown, a present but empty
camera frame is not treated like an absent frame: `cv2.resize` raises and
`render` fails instead of leaving the camera region as background. -/
theorem c3_counterexample :
    (render (construct ⟨2, 3⟩ true) []
      (some ⟨0, 0, fun _ _ => (0, 0, 0)⟩)).isOk = false := rfl

/-- Claim C3 (amended): with the camera shown, an absent frame never errors
and leaves the full camera band of the canvas (all rows from the camera y
offset for the camera height) at the background color 30, provided the cell
rows are nonnegative as the data model requires; but a present empty frame
(zero rows or zero columns) makes `render` raise from the resize call. -/
theorem c3_camera_frame_handling (cfg : GridConfig) (cells : List CellData)
    (y x : Int) (f : Frame)
    (hcells : ∀ cd ∈ cells, 0 ≤ cd.row)
    (hy1 : padding + buttonHeight + padding ≤ y)
    (hy2 : y < padding + buttonHeight + padding +
      (calculateResponsiveSizes cfg).cameraHeight)
    (hf : f.rows = 0 ∨ f.cols = 0) :
    renderPixel (render (construct cfg true) cells none) y x =
      some (30, 30, 30) ∧
    (render (construct cfg true) cells (some f)).isOk = false := by
  constructor
  · have hgy : (construct cfg true).layout.gridYOffset =
        some (padding + buttonHeight + padding +
          (calculateResponsiveSizes cfg).cameraHeight + padding) := by
      simp only [construct, recalculateLayout, eq_self_iff_true, if_true]
    rw [render_none_ok (construct cfg true) cells _ rfl rfl hgy]
    show some (drawButtons (construct cfg true) _ y x) = _
    rw [drawButtons_untouched (construct cfg true) _ y x
        (show padding + buttonHeight < y by unfold padding buttonHeight at hy1 ⊢; omega)
        (show padding + buttonHeight < y by unfold padding buttonHeight at hy1 ⊢; omega)
        (show padding + buttonHeight < y by unfold padding buttonHeight at hy1 ⊢; omega),
      show (construct cfg true).sizes = calculateResponsiveSizes cfg from rfl,
      foldl_drawCell_untouched (calculateResponsiveSizes cfg) _ _ y x
        (sizes_cell_nonneg cfg).1 (by unfold padding at hy2 ⊢; omega) cells _ hcells]
  · obtain ⟨fr, fc, fp⟩ := f
    rcases hf with h | h
    · subst h
      rfl
    · subst h
      cases fr with
      | zero => rfl
      | succ n => rfl

/-- Claim C3, witness: the amended frame-handling facts hold concretely for
the 1 by 1 visualizer at canvas row 55, column 0, with an empty frame. -/
theorem c3_witness :
    renderPixel (render (construct ⟨1, 1⟩ true) [] none) 55 0 =
      some (30, 30, 30) ∧
    (render (construct ⟨1, 1⟩ true) []
      (some ⟨0, 0, fun _ _ => (0, 0, 0)⟩)).isOk = false :=
  c3_camera_frame_handling ⟨1, 1⟩ [] 55 0 ⟨0, 0, fun _ _ => (0, 0, 0)⟩
    (by simp)
    (by decide)
    (by rw [calculateResponsiveSizes_closed]; decide)
    (by decide)

end WebcamOSC
